import Mathlib

/-!
# z-index-world: verification of the collision/physics core

Shallow embedding of `dist/content-script.js` (the canonical delta-time,
step-up, axis-separated engine).  Coordinates and times are modelled as
rationals; JS `Map`-based grids are modelled as functions from integer cell
pairs to lists of boxes.
-/

namespace ZIndexWorld

/-- `Box` from the data model: axis-aligned solid, `(x, y)` top-left of the 2D
footprint, `z` the lower face height, `(w, h)` the footprint, `d` the depth. -/
structure Box where
  x : ℚ
  y : ℚ
  z : ℚ
  w : ℚ
  h : ℚ
  d : ℚ
deriving DecidableEq

/-- The player: a box extended with a velocity (fields as in the JS object). -/
structure Player where
  x : ℚ
  y : ℚ
  z : ℚ
  w : ℚ
  h : ℚ
  d : ℚ
  vx : ℚ
  vy : ℚ
  vz : ℚ
deriving DecidableEq

-- Constants (content-script.js lines 9-23)
def BOX_D : ℚ := 80
def GRID_CELL : ℚ := 200
def VIEWPORT_MARGIN : ℚ := 300
def PLAYER_SIZE : ℚ := 20
def PLAYER_DEPTH : ℚ := 20
def Z_MAX : ℤ := 10000
def STEP_HEIGHT : ℚ := 32
def MOVE_SPEED : ℚ := 300
def GRAVITY : ℚ := 700
def MIN_JUMP_VZ : ℚ := 300

/-- `overlapX(a, b)` (line 64): strict interval overlap on the X axis. -/
def overlapX (a : Player) (b : Box) : Prop :=
  a.x < b.x + b.w ∧ a.x + a.w > b.x

/-- `overlapY(a, b)` (line 67). -/
def overlapY (a : Player) (b : Box) : Prop :=
  a.y < b.y + b.h ∧ a.y + a.h > b.y

/-- `overlapZ(a, b)` (line 70). -/
def overlapZ (a : Player) (b : Box) : Prop :=
  a.z < b.z + b.d ∧ a.z + a.d > b.z

instance (a : Player) (b : Box) : Decidable (overlapX a b) :=
  inferInstanceAs (Decidable (_ ∧ _))

instance (a : Player) (b : Box) : Decidable (overlapY a b) :=
  inferInstanceAs (Decidable (_ ∧ _))

instance (a : Player) (b : Box) : Decidable (overlapZ a b) :=
  inferInstanceAs (Decidable (_ ∧ _))

-- ============================================================================
-- Uniform grid (content-script.js lines 80-117)
-- ============================================================================

/-- A cell coordinate: the JS code keys its `Map` by the string `"cx,cy"`,
which is in bijection with the integer pair. -/
abbrev Cell := ℤ × ℤ

/-- The spatial grid: cell -> boxes inserted into that cell. -/
abbrev Grid := Cell → List Box

/-- `Math.floor(q / GRID_CELL)`: the cell index of a coordinate. -/
def cellIdx (q : ℚ) : ℤ := ⌊q / GRID_CELL⌋

/-- The inclusive integer range `lo..hi` traversed by `for (c = lo; c <= hi; c++)`. -/
def cellRange (lo hi : ℤ) : List ℤ :=
  (List.range (hi - lo + 1).toNat).map fun (i : ℕ) => lo + (i : ℤ)

def emptyGrid : Grid := fun _ => []

/-- One iteration of the outer loop of `buildGrid` (lines 85-98): the box is
appended to every cell `(cx, cy)` with `cx ∈ floor(x/CELL)..floor((x+w)/CELL)`
and `cy ∈ floor(y/CELL)..floor((y+h)/CELL)`. -/
def insertBox (g : Grid) (b : Box) : Grid :=
  fun k =>
    if k.1 ∈ cellRange (cellIdx b.x) (cellIdx (b.x + b.w)) ∧
       k.2 ∈ cellRange (cellIdx b.y) (cellIdx (b.y + b.h)) then
      g k ++ [b]
    else g k

/-- `buildGrid(boxList)` (lines 83-100). -/
def buildGrid (boxList : List Box) : Grid :=
  boxList.foldl insertBox emptyGrid

/-- `queryNearby(p)` (lines 101-117): union of all cells touched by the
player's footprint expanded by `margin = GRID_CELL`, de-duplicated (the JS
code collects into a `Set`). -/
def queryNearby (g : Grid) (p : Player) : List Box :=
  (((cellRange (cellIdx (p.x - GRID_CELL)) (cellIdx (p.x + p.w + GRID_CELL))).flatMap
      fun cx =>
        (cellRange (cellIdx (p.y - GRID_CELL)) (cellIdx (p.y + p.h + GRID_CELL))).flatMap
          fun cy => g (cx, cy))).dedup

/-- The query region of `queryNearby`: the player's footprint expanded by the
fixed margin `GRID_CELL`, and strict 2D overlap of a box's footprint with it. -/
def overlapsQueryRegion (p : Player) (b : Box) : Prop :=
  (b.x < p.x + p.w + GRID_CELL ∧ p.x - GRID_CELL < b.x + b.w) ∧
  (b.y < p.y + p.h + GRID_CELL ∧ p.y - GRID_CELL < b.y + b.h)

instance (p : Player) (b : Box) : Decidable (overlapsQueryRegion p b) :=
  inferInstanceAs (Decidable (_ ∧ _))

-- Membership lemmas for the grid

lemma mem_cellRange {lo hi x : ℤ} : x ∈ cellRange lo hi ↔ lo ≤ x ∧ x ≤ hi := by
  unfold cellRange
  constructor
  · intro hx
    obtain ⟨i, hi1, rfl⟩ := List.mem_map.mp hx
    have h2 := List.mem_range.mp hi1
    omega
  · intro h
    apply List.mem_map.mpr
    exact ⟨(x - lo).toNat, List.mem_range.mpr (by omega), by omega⟩

lemma cellIdx_mono {q r : ℚ} (h : q ≤ r) : cellIdx q ≤ cellIdx r := by
  apply Int.floor_le_floor
  have hc : (0 : ℚ) ≤ GRID_CELL := by norm_num [GRID_CELL]
  exact div_le_div_of_nonneg_right h hc

lemma mem_insertBox_mono {g : Grid} {b x : Box} {k : Cell} (h : x ∈ g k) :
    x ∈ insertBox g b k := by
  unfold insertBox
  split
  · exact List.mem_append_left _ h
  · exact h

lemma mem_insertBox_self {g : Grid} {b : Box} {k : Cell}
    (hx : k.1 ∈ cellRange (cellIdx b.x) (cellIdx (b.x + b.w)))
    (hy : k.2 ∈ cellRange (cellIdx b.y) (cellIdx (b.y + b.h))) :
    b ∈ insertBox g b k := by
  unfold insertBox
  rw [if_pos ⟨hx, hy⟩]
  exact List.mem_append_right _ (List.mem_singleton_self b)

lemma mem_foldl_insertBox_mono (bs : List Box) (g : Grid) (k : Cell) (x : Box)
    (h : x ∈ g k) : x ∈ (bs.foldl insertBox g) k := by
  induction bs generalizing g with
  | nil => exact h
  | cons a t ih => exact ih _ (mem_insertBox_mono h)

lemma mem_foldl_insertBox {bs : List Box} (g : Grid) {b : Box} {k : Cell} (hb : b ∈ bs)
    (hx : k.1 ∈ cellRange (cellIdx b.x) (cellIdx (b.x + b.w)))
    (hy : k.2 ∈ cellRange (cellIdx b.y) (cellIdx (b.y + b.h))) :
    b ∈ (bs.foldl insertBox g) k := by
  induction bs generalizing g with
  | nil => cases hb
  | cons a t ih =>
    rcases List.mem_cons.mp hb with rfl | hmem
    · exact mem_foldl_insertBox_mono t _ k b (mem_insertBox_self hx hy)
    · exact ih _ hmem

lemma mem_buildGrid {bs : List Box} {b : Box} {k : Cell} (hb : b ∈ bs)
    (hx : k.1 ∈ cellRange (cellIdx b.x) (cellIdx (b.x + b.w)))
    (hy : k.2 ∈ cellRange (cellIdx b.y) (cellIdx (b.y + b.h))) :
    b ∈ buildGrid bs k :=
  mem_foldl_insertBox emptyGrid hb hx hy

lemma mem_queryNearby {g : Grid} {p : Player} {b : Box} (cx cy : ℤ)
    (hcx : cx ∈ cellRange (cellIdx (p.x - GRID_CELL)) (cellIdx (p.x + p.w + GRID_CELL)))
    (hcy : cy ∈ cellRange (cellIdx (p.y - GRID_CELL)) (cellIdx (p.y + p.h + GRID_CELL)))
    (hb : b ∈ g (cx, cy)) : b ∈ queryNearby g p := by
  unfold queryNearby
  rw [List.mem_dedup]
  exact List.mem_flatMap.mpr ⟨cx, hcx, List.mem_flatMap.mpr ⟨cy, hcy, hb⟩⟩

lemma queryNearby_mem_of_overlap (boxList : List Box) (p : Player) (b : Box)
    (hb : b ∈ boxList) (hbw : 0 ≤ b.w) (hbh : 0 ≤ b.h)
    (hpw : 0 ≤ p.w) (hph : 0 ≤ p.h)
    (hov : overlapsQueryRegion p b) :
    b ∈ queryNearby (buildGrid boxList) p := by
  obtain ⟨⟨hx1, hx2⟩, ⟨hy1, hy2⟩⟩ := hov
  -- a common X coordinate of the box footprint and the query region
  set tx : ℚ := max b.x (p.x - GRID_CELL) with htx
  set ty : ℚ := max b.y (p.y - GRID_CELL) with hty
  have htx1 : b.x ≤ tx := le_max_left _ _
  have htx2 : tx ≤ b.x + b.w := max_le (by linarith) (le_of_lt hx2)
  have htx3 : p.x - GRID_CELL ≤ tx := le_max_right _ _
  have htx4 : tx ≤ p.x + p.w + GRID_CELL := by
    have hc : (0 : ℚ) ≤ GRID_CELL := by norm_num [GRID_CELL]
    exact max_le (le_of_lt hx1) (by linarith)
  have hty1 : b.y ≤ ty := le_max_left _ _
  have hty2 : ty ≤ b.y + b.h := max_le (by linarith) (le_of_lt hy2)
  have hty3 : p.y - GRID_CELL ≤ ty := le_max_right _ _
  have hty4 : ty ≤ p.y + p.h + GRID_CELL := by
    have hc : (0 : ℚ) ≤ GRID_CELL := by norm_num [GRID_CELL]
    exact max_le (le_of_lt hy1) (by linarith)
  apply mem_queryNearby (cellIdx tx) (cellIdx ty)
  · exact mem_cellRange.mpr ⟨cellIdx_mono htx3, cellIdx_mono htx4⟩
  · exact mem_cellRange.mpr ⟨cellIdx_mono hty3, cellIdx_mono hty4⟩
  · exact mem_buildGrid hb
      (mem_cellRange.mpr ⟨cellIdx_mono htx1, cellIdx_mono htx2⟩)
      (mem_cellRange.mpr ⟨cellIdx_mono hty1, cellIdx_mono hty2⟩)

/-- C2: for every box list and every player, `queryNearby` after `buildGrid`
returns every box whose 2D footprint truly overlaps the queried region (the
player's footprint expanded by the fixed margin `GRID_CELL`) — no false
negatives.  The box and player are assumed to have non-negative sizes. -/
theorem queryNearby_sound (boxList : List Box) (p : Player) (b : Box)
    (hb : b ∈ boxList) (hbw : 0 ≤ b.w) (hbh : 0 ≤ b.h)
    (hpw : 0 ≤ p.w) (hph : 0 ≤ p.h)
    (hov : overlapsQueryRegion p b) :
    b ∈ queryNearby (buildGrid boxList) p :=
  queryNearby_mem_of_overlap boxList p b hb hbw hbh hpw hph hov

def playerW1 : Player :=
  { x := 100, y := 100, z := 0, w := 20, h := 20, d := 20, vx := 0, vy := 0, vz := 0 }

def boxW1 : Box := { x := 250, y := 250, z := 0, w := 60, h := 60, d := 80 }

/-- Witness for C2 at a concrete box and player. -/
theorem queryNearby_sound_witness :
    boxW1 ∈ queryNearby (buildGrid [boxW1]) playerW1 :=
  queryNearby_sound [boxW1] playerW1 boxW1 (by simp)
    (by norm_num [boxW1]) (by norm_num [boxW1])
    (by norm_num [playerW1]) (by norm_num [playerW1])
    (by norm_num [overlapsQueryRegion, boxW1, playerW1, GRID_CELL])

-- ============================================================================
-- DOM scan -> boxes (content-script.js lines 121-203)
-- ============================================================================

/-- `EXCLUDED_TAGS` (lines 24-27). -/
def EXCLUDED_TAGS : List String :=
  ["HTML", "BODY", "HEAD", "SCRIPT", "STYLE", "META", "LINK", "NOSCRIPT",
   "BR", "WBR", "TEMPLATE", "SLOT", "SVG", "PATH", "IFRAME"]

/-- The computed `z-index` string as the scan loop (lines 145-150) classifies
it: the literal string `"auto"`, the empty string, a string on which
`parseInt` returns `NaN`, or a string parsing to the integer `n`. -/
inductive ZIndexStr where
  | auto : ZIndexStr
  | emptyStr : ZIndexStr
  | nonNumeric : ZIndexStr
  | numeric (n : ℤ) : ZIndexStr
deriving DecidableEq

/-- A snapshot of one DOM element as the scan loop reads it: tag name, whether
its id starts with `"dom3d-"`, computed display / visibility / position,
computed `z-index`, bounding rect (`right = left + width`,
`bottom = top + height`), the element's inline `style.transform`, the computed
`transform`, and whether the computed transform already contains
`"translateZ"`. -/
structure Elem where
  tag : String
  idDom3d : Bool
  display : String
  visibility : String
  position : String
  zIndex : ZIndexStr
  left : ℚ
  top : ℚ
  width : ℚ
  height : ℚ
  inlineTransform : String
  computedTransform : String
  computedHasTranslateZ : Bool
deriving DecidableEq

/-- `normalizeZ(rawZ)` (lines 121-124): clamp to `[-Z_MAX, Z_MAX]`. -/
def normalizeZ (rawZ : ℤ) : ℤ :=
  max (-Z_MAX) (min Z_MAX rawZ)

/-- `"translateZ(<z>px)"`. -/
def translateZStr (z : ℚ) : String :=
  "translateZ(" ++ toString z ++ "px)"

/-- The transform value the scan writes onto an eligible element
(lines 161-170): append `translateZ` to a non-trivial computed transform that
does not already contain one, replace a missing/`none` computed transform by
a bare `translateZ`, and otherwise leave the element's inline transform. -/
def appliedTransform (e : Elem) (z : ℚ) : String :=
  if e.computedTransform ≠ "" ∧ e.computedTransform ≠ "none" ∧
     e.computedHasTranslateZ = false then
    e.computedTransform ++ " " ++ translateZStr z
  else if e.computedTransform = "" ∨ e.computedTransform = "none" then
    translateZStr z
  else
    e.inlineTransform

/-- One `modifiedElements` entry (line 163) together with the transform value
in effect after the scan touched the element. -/
structure ElemMod where
  original : String
  applied : String
deriving DecidableEq

/-- One iteration of the scan loop (lines 131-179): `none` when a `continue`
fires, otherwise the produced box and the recorded element modification. -/
def processElem (vw vh : ℚ) (e : Elem) : Option (Box × ElemMod) :=
  if e.tag ∈ EXCLUDED_TAGS then none
  else if e.idDom3d then none
  else if e.display = "none" ∨ e.visibility = "hidden" then none
  else if e.position = "static" then none
  else
    match e.zIndex with
    | .auto => none
    | .emptyStr => none
    | .nonNumeric => none
    | .numeric n =>
      if e.width < 10 ∨ e.height < 10 then none
      else if e.left + e.width < -VIEWPORT_MARGIN ∨ e.left > vw + VIEWPORT_MARGIN then none
      else if e.top + e.height < -VIEWPORT_MARGIN ∨ e.top > vh + VIEWPORT_MARGIN then none
      else
        let z : ℚ := (normalizeZ (max 0 n) : ℤ)
        some ({ x := e.left, y := e.top, z := z, w := e.width, h := e.height, d := BOX_D },
              { original := e.inlineTransform, applied := appliedTransform e z })

/-- The `documentElement` bounding rect. -/
structure DocRect where
  left : ℚ
  top : ℚ
  width : ℚ
  height : ℚ
deriving DecidableEq

/-- The synthetic base floor built from `documentElement` (lines 181-189). -/
def baseFloor (doc : DocRect) : Box :=
  { x := doc.left, y := doc.top, z := 0, w := doc.width, h := doc.height, d := 1 }

/-- The output of `scanDOM` (lines 125-197) relevant here: the box list (the
base floor always appended last) and the `modifiedElements` entries. -/
structure ScanResult where
  boxes : List Box
  mods : List ElemMod
deriving DecidableEq

/-- `scanDOM` (lines 125-197), modelled over a snapshot of the DOM: viewport
size, document rect and element list. -/
def scanDOM (vw vh : ℚ) (doc : DocRect) (elems : List Elem) : ScanResult :=
  let processed := elems.filterMap (processElem vw vh)
  { boxes := processed.map Prod.fst ++ [baseFloor doc],
    mods := processed.map Prod.snd }

/-- `restoreModifiedElements` (lines 198-203): every recorded element gets its
original inline transform back. -/
def restoreModifiedElements (mods : List ElemMod) : List String :=
  mods.map fun m => m.original

-- ============================================================================
-- Start/Goal selector (content-script.js lines 204-210)
-- ============================================================================

/-- `boxes.reduce((a, b) => a.z < b.z ? a : b)` on `bb :: rest`. -/
def reduceMinZ (bb : Box) (rest : List Box) : Box :=
  rest.foldl (fun a c => if a.z < c.z then a else c) bb

/-- `boxes.reduce((a, b) => a.z > b.z ? a : b)` on `bb :: rest`. -/
def reduceMaxZ (bb : Box) (rest : List Box) : Box :=
  rest.foldl (fun a c => if a.z > c.z then a else c) bb

/-- `pickStartGoal` (lines 204-210): `none` on the empty list (the early
return leaves `startBox`/`goalBox` untouched), otherwise the pair
`(argmin z, argmax z)` of the two `reduce` calls. -/
def pickStartGoal (boxList : List Box) : Option (Box × Box) :=
  match boxList with
  | [] => none
  | bb :: rest => some (reduceMinZ bb rest, reduceMaxZ bb rest)

-- Selector lemmas

lemma reduceMinZ_cons (bb c : Box) (t : List Box) :
    reduceMinZ bb (c :: t) = reduceMinZ (if bb.z < c.z then bb else c) t := rfl

lemma reduceMaxZ_cons (bb c : Box) (t : List Box) :
    reduceMaxZ bb (c :: t) = reduceMaxZ (if bb.z > c.z then bb else c) t := rfl

lemma reduceMinZ_mem (bb : Box) (rest : List Box) : reduceMinZ bb rest ∈ bb :: rest := by
  induction rest generalizing bb with
  | nil => exact List.mem_singleton_self bb
  | cons c t ih =>
    rw [reduceMinZ_cons]
    rcases List.mem_cons.mp (ih (if bb.z < c.z then bb else c)) with heq | hmem
    · rw [heq]
      split
      · exact List.mem_cons_self _ _
      · exact List.mem_cons.mpr (Or.inr (List.mem_cons_self _ _))
    · exact List.mem_cons.mpr (Or.inr (List.mem_cons.mpr (Or.inr hmem)))

lemma reduceMaxZ_mem (bb : Box) (rest : List Box) : reduceMaxZ bb rest ∈ bb :: rest := by
  induction rest generalizing bb with
  | nil => exact List.mem_singleton_self bb
  | cons c t ih =>
    rw [reduceMaxZ_cons]
    rcases List.mem_cons.mp (ih (if bb.z > c.z then bb else c)) with heq | hmem
    · rw [heq]
      split
      · exact List.mem_cons_self _ _
      · exact List.mem_cons.mpr (Or.inr (List.mem_cons_self _ _))
    · exact List.mem_cons.mpr (Or.inr (List.mem_cons.mpr (Or.inr hmem)))

lemma reduceMinZ_le (bb : Box) (rest : List Box) :
    ∀ c ∈ bb :: rest, (reduceMinZ bb rest).z ≤ c.z := by
  induction rest generalizing bb with
  | nil =>
    intro c hc
    rw [List.mem_singleton] at hc
    subst hc
    exact le_refl _
  | cons c t ih =>
    intro d hd
    rw [reduceMinZ_cons]
    have hbase : (reduceMinZ (if bb.z < c.z then bb else c) t).z ≤
        (if bb.z < c.z then bb else c).z :=
      ih _ _ (List.mem_cons_self _ _)
    rcases List.mem_cons.mp hd with rfl | hd2
    · refine hbase.trans ?_
      split
      · exact le_refl _
      · exact le_of_not_lt (by assumption)
    · rcases List.mem_cons.mp hd2 with rfl | hd3
      · refine hbase.trans ?_
        split
        · exact le_of_lt (by assumption)
        · exact le_refl _
      · exact ih _ _ (List.mem_cons.mpr (Or.inr hd3))

lemma reduceMaxZ_ge (bb : Box) (rest : List Box) :
    ∀ c ∈ bb :: rest, c.z ≤ (reduceMaxZ bb rest).z := by
  induction rest generalizing bb with
  | nil =>
    intro c hc
    rw [List.mem_singleton] at hc
    subst hc
    exact le_refl _
  | cons c t ih =>
    intro d hd
    rw [reduceMaxZ_cons]
    have hbase : (if bb.z > c.z then bb else c).z ≤
        (reduceMaxZ (if bb.z > c.z then bb else c) t).z :=
      ih _ _ (List.mem_cons_self _ _)
    rcases List.mem_cons.mp hd with rfl | hd2
    · refine le_trans ?_ hbase
      split
      · exact le_refl _
      · exact le_of_not_lt (by assumption)
    · rcases List.mem_cons.mp hd2 with rfl | hd3
      · refine le_trans ?_ hbase
        split
        · exact le_of_lt (by assumption)
        · exact le_refl _
      · exact ih _ _ (List.mem_cons.mpr (Or.inr hd3))

/-- C8: for every non-empty box list, `pickStartGoal` returns a Start box of
minimal z and a Goal box of maximal z, both members of the list, and both are
always defined. -/
theorem pickStartGoal_min_max (bb : Box) (rest : List Box) :
    ∃ sb gb, pickStartGoal (bb :: rest) = some (sb, gb) ∧
      sb ∈ bb :: rest ∧ gb ∈ bb :: rest ∧
      (∀ c ∈ bb :: rest, sb.z ≤ c.z) ∧ (∀ c ∈ bb :: rest, c.z ≤ gb.z) :=
  ⟨reduceMinZ bb rest, reduceMaxZ bb rest, rfl, reduceMinZ_mem bb rest,
    reduceMaxZ_mem bb rest, reduceMinZ_le bb rest, reduceMaxZ_ge bb rest⟩

def boxT1 : Box := { x := 0, y := 0, z := 5, w := 50, h := 50, d := 80 }

def boxT2 : Box := { x := 300, y := 0, z := 5, w := 50, h := 50, d := 80 }

/-- C9 counterexample: with two distinct boxes of equal z, `pickStartGoal`
returns the same box as Start and Goal — the claimed re-pick of the Goal as
the next-highest-z box never happens. -/
theorem pickStartGoal_tie_cex :
    pickStartGoal [boxT1, boxT2] = some (boxT2, boxT2) ∧ boxT1 ≠ boxT2 := by
  constructor
  · show some (reduceMinZ boxT1 [boxT2], reduceMaxZ boxT1 [boxT2]) = _
    rw [reduceMinZ_cons, reduceMaxZ_cons]
    norm_num [boxT1, boxT2, reduceMinZ, reduceMaxZ]
  · simp only [boxT1, boxT2, ne_eq, Box.mk.injEq]
    norm_num

lemma reduceMinZ_all_eq (bb : Box) (rest : List Box) (h : ∀ c ∈ rest, c.z = bb.z) :
    reduceMinZ bb rest = rest.getLastD bb := by
  induction rest generalizing bb with
  | nil => rfl
  | cons c t ih =>
    have hc : c.z = bb.z := h c (List.mem_cons_self _ _)
    rw [reduceMinZ_cons, List.getLastD_cons, if_neg (by rw [hc]; exact lt_irrefl _)]
    exact ih c fun d hd => (h d (List.mem_cons.mpr (Or.inr hd))).trans hc.symm

lemma reduceMaxZ_all_eq (bb : Box) (rest : List Box) (h : ∀ c ∈ rest, c.z = bb.z) :
    reduceMaxZ bb rest = rest.getLastD bb := by
  induction rest generalizing bb with
  | nil => rfl
  | cons c t ih =>
    have hc : c.z = bb.z := h c (List.mem_cons_self _ _)
    rw [reduceMaxZ_cons, List.getLastD_cons, if_neg (by rw [hc]; exact lt_irrefl _)]
    exact ih c fun d hd => (h d (List.mem_cons.mpr (Or.inr hd))).trans hc.symm

/-- C9 amended: `pickStartGoal` performs no tie-break at all.  Both `reduce`
calls resolve ties towards the later element, so when all boxes share the
same z the Start and the Goal are both the LAST box of the list — they
coincide even when two or more boxes exist (the Goal is still always
defined for a non-empty list, never left null). -/
theorem pickStartGoal_all_equal_last (bb : Box) (rest : List Box)
    (h : ∀ c ∈ rest, c.z = bb.z) :
    pickStartGoal (bb :: rest) = some (rest.getLastD bb, rest.getLastD bb) := by
  show some (reduceMinZ bb rest, reduceMaxZ bb rest) = _
  rw [reduceMinZ_all_eq bb rest h, reduceMaxZ_all_eq bb rest h]

/-- Witness for the amended C9 at a concrete two-box list. -/
theorem pickStartGoal_all_equal_last_witness :
    pickStartGoal [boxT1, boxT2] = some ([boxT2].getLastD boxT1, [boxT2].getLastD boxT1) :=
  pickStartGoal_all_equal_last boxT1 [boxT2] (by
    intro c hc
    rw [List.mem_singleton] at hc
    subst hc
    norm_num [boxT1, boxT2])

-- Scanner lemmas and theorems

lemma processElem_z_nonneg {vw vh : ℚ} {e : Elem} {bx : Box} {m : ElemMod}
    (h : processElem vw vh e = some (bx, m)) : 0 ≤ bx.z := by
  rcases hz : e.zIndex with _ | _ | _ | n <;>
    simp only [processElem, hz] at h <;>
    split_ifs at h <;>
    simp only [Option.some.injEq, Prod.mk.injEq, reduceCtorEq] at h
  obtain ⟨hbx, _⟩ := h
  cases hbx
  show (0 : ℚ) ≤ ((normalizeZ (max 0 n) : ℤ) : ℚ)
  have hnn : 0 ≤ normalizeZ (max 0 n) := by
    unfold normalizeZ Z_MAX
    omega
  exact_mod_cast hnn

lemma getLast?_append_singleton {α : Type} (l : List α) (a : α) :
    (l ++ [a]).getLast? = some a := by
  induction l with
  | nil => rfl
  | cons x t ih =>
    rw [List.cons_append, List.getLast?_cons, ih]
    cases t <;> rfl

/-- C3 amended: every scan output is non-empty and ends with the synthetic
ground box (the base floor built from the document rect, at z = 0), and every
box in the list sits at z ≥ 0 — but the output need NOT contain exactly one
box with z = 0: eligible elements whose clamped stacking order is 0 also
produce z = 0 boxes. -/
theorem scanDOM_ground_last (vw vh : ℚ) (doc : DocRect) (elems : List Elem) :
    (scanDOM vw vh doc elems).boxes ≠ [] ∧
    (scanDOM vw vh doc elems).boxes.getLast? = some (baseFloor doc) ∧
    (baseFloor doc).z = 0 ∧
    ∀ bb ∈ (scanDOM vw vh doc elems).boxes, 0 ≤ bb.z := by
  refine ⟨by simp [scanDOM], ?_, rfl, ?_⟩
  · exact getLast?_append_singleton _ _
  · intro bb hbb
    rcases List.mem_append.mp hbb with hmem | hground
    · obtain ⟨pr, hpr, rfl⟩ := List.mem_map.mp hmem
      obtain ⟨e, _, hpe⟩ := List.mem_filterMap.mp hpr
      have hpe2 : processElem vw vh e = some (pr.1, pr.2) := by rw [hpe]
      exact processElem_z_nonneg hpe2
    · rw [List.mem_singleton] at hground
      subst hground
      norm_num [baseFloor]

def docW : DocRect := { left := 0, top := 0, width := 800, height := 2000 }

def elemZ0 : Elem :=
  { tag := "DIV", idDom3d := false, display := "block", visibility := "visible",
    position := "absolute", zIndex := .numeric 0, left := 0, top := 0,
    width := 100, height := 100, inlineTransform := "", computedTransform := "none",
    computedHasTranslateZ := false }

lemma processElem_elemZ0 :
    processElem 800 600 elemZ0 =
      some ({ x := 0, y := 0, z := 0, w := 100, h := 100, d := BOX_D },
            { original := "", applied := translateZStr 0 }) := by
  norm_num +decide [processElem, elemZ0, EXCLUDED_TAGS, VIEWPORT_MARGIN,
    normalizeZ, Z_MAX, appliedTransform]

/-- C3 counterexample: a positioned, visible element with explicit
`z-index: 0` passes every filter and produces a box with z = 0 next to the
ground box, so the scan output contains TWO distinct boxes with z = 0, not
exactly one. -/
theorem scanDOM_two_zero_z_cex :
    (scanDOM 800 600 docW [elemZ0]).boxes =
      [{ x := 0, y := 0, z := 0, w := 100, h := 100, d := BOX_D },
       baseFloor docW] ∧
    ({ x := 0, y := 0, z := 0, w := 100, h := 100, d := BOX_D } : Box) ≠ baseFloor docW ∧
    (baseFloor docW).z = 0 := by
  refine ⟨?_, ?_, rfl⟩
  · simp only [scanDOM, List.filterMap_cons, List.filterMap_nil, processElem_elemZ0]
    rfl
  · simp only [baseFloor, docW, ne_eq, Box.mk.injEq]
    norm_num

/-- C6 counterexample: scanning one ordinary positioned element records a
`modifiedElements` entry whose written transform (`translateZ(...)`) differs
from the element's original inline transform (empty), i.e. the scan mutates
the scanned element's presentation state. -/
theorem scanDOM_mutates_cex :
    (scanDOM 800 600 docW [elemZ0]).mods =
      [{ original := "", applied := translateZStr 0 }] ∧
    translateZStr 0 ≠ "" := by
  constructor
  · simp only [scanDOM, List.filterMap_cons, List.filterMap_nil, processElem_elemZ0]
    rfl
  · intro hcontra
    have hlen := congrArg String.length hcontra
    rw [translateZStr, String.length_append, String.length_append] at hlen
    have h1 : ("translateZ(").length = 11 := rfl
    have h2 : ("px)").length = 3 := rfl
    have h3 : ("").length = 0 := rfl
    omega

/-- C6 amended: the canonical scanner is NOT read-only.  Every eligible
element is recorded in `modifiedElements` together with its original inline
transform, and — whenever its computed transform does not already contain
`translateZ` — its style transform is overwritten with a different,
non-empty `translateZ`-bearing value; `restoreModifiedElements` maps the
record back to the original inline transform. -/
theorem scanDOM_mutation_recorded (vw vh : ℚ) (e : Elem) (bx : Box) (m : ElemMod)
    (hp : processElem vw vh e = some (bx, m))
    (hnt : e.computedHasTranslateZ = false) :
    m.original = e.inlineTransform ∧
    m.applied ≠ e.computedTransform ∧
    m.applied ≠ "" ∧
    restoreModifiedElements [m] = [e.inlineTransform] := by
  rcases hz : e.zIndex with _ | _ | _ | n <;>
    simp only [processElem, hz] at hp <;>
    split_ifs at hp <;>
    simp only [Option.some.injEq, Prod.mk.injEq, reduceCtorEq] at hp
  obtain ⟨_, hm⟩ := hp
  have horig : m.original = e.inlineTransform := by rw [← hm]
  have htlen : ∀ z : ℚ, (translateZStr z).length = 14 + (toString z).length := by
    intro z
    rw [translateZStr, String.length_append, String.length_append]
    have h1 : ("translateZ(").length = 11 := rfl
    have h2 : ("px)").length = 3 := rfl
    omega
  have happ : m.applied ≠ e.computedTransform ∧ m.applied ≠ "" := by
    rw [← hm]
    show appliedTransform e _ ≠ _ ∧ appliedTransform e _ ≠ _
    unfold appliedTransform
    split_ifs with h1 h2
    · obtain ⟨hne1, hne2, _⟩ := h1
      constructor
      · intro hcontra
        have hlen := congrArg String.length hcontra
        rw [String.length_append, String.length_append, htlen] at hlen
        have hs : (" ").length = 1 := rfl
        omega
      · intro hcontra
        have hlen := congrArg String.length hcontra
        rw [String.length_append, String.length_append, htlen] at hlen
        have hs : (" ").length = 1 := rfl
        have h3 : ("").length = 0 := rfl
        omega
    · constructor
      · rcases h2 with hc | hc <;> rw [hc]
        · intro hcontra
          have hlen := congrArg String.length hcontra
          rw [htlen] at hlen
          have h3 : ("").length = 0 := rfl
          omega
        · intro hcontra
          have hlen := congrArg String.length hcontra
          rw [htlen] at hlen
          have h4 : ("none").length = 4 := rfl
          omega
      · intro hcontra
        have hlen := congrArg String.length hcontra
        rw [htlen] at hlen
        have h3 : ("").length = 0 := rfl
        omega
    · exfalso
      rw [not_and_or, not_and_or] at h1
      rcases h1 with hc | hc | hc
      · exact h2 (Or.inl (not_not.mp hc))
      · exact h2 (Or.inr (not_not.mp hc))
      · exact hc hnt
  exact ⟨horig, happ.1, happ.2, by rw [restoreModifiedElements, List.map_singleton, horig]⟩

/-- Witness for the amended C6 at a concrete element. -/
theorem scanDOM_mutation_recorded_witness :
    ({ original := "", applied := appliedTransform elemZ0 ((normalizeZ (max 0 0) : ℤ) : ℚ) } :
        ElemMod).original = elemZ0.inlineTransform ∧
    ({ original := "", applied := appliedTransform elemZ0 ((normalizeZ (max 0 0) : ℤ) : ℚ) } :
        ElemMod).applied ≠ elemZ0.computedTransform ∧
    ({ original := "", applied := appliedTransform elemZ0 ((normalizeZ (max 0 0) : ℤ) : ℚ) } :
        ElemMod).applied ≠ "" ∧
    restoreModifiedElements
      [{ original := "", applied := appliedTransform elemZ0 ((normalizeZ (max 0 0) : ℤ) : ℚ) }] =
      [elemZ0.inlineTransform] :=
  scanDOM_mutation_recorded 800 600 elemZ0
    { x := 0, y := 0, z := ((normalizeZ (max 0 0) : ℤ) : ℚ), w := 100, h := 100, d := BOX_D }
    { original := "", applied := appliedTransform elemZ0 ((normalizeZ (max 0 0) : ℤ) : ℚ) }
    (by norm_num +decide [processElem, elemZ0, EXCLUDED_TAGS, VIEWPORT_MARGIN]) rfl

/-- C7 amended: for an element passing every non-z-index filter, a missing or
invalid stacking-order value (`auto`, empty, or non-numeric) causes the
element to be SKIPPED entirely — it yields no box at all, rather than a box
with z = 0 — while a numeric value is clamped below by 0 (negatives become 0)
and clamped in magnitude by `Z_MAX` via `normalizeZ`. -/
theorem zindex_normalization (vw vh : ℚ) (e : Elem) (n : ℤ)
    (htag : e.tag ∉ EXCLUDED_TAGS) (hid : e.idDom3d = false)
    (hdis : ¬(e.display = "none" ∨ e.visibility = "hidden"))
    (hpos : ¬(e.position = "static"))
    (hw : ¬(e.width < 10 ∨ e.height < 10))
    (hvx : ¬(e.left + e.width < -VIEWPORT_MARGIN ∨ e.left > vw + VIEWPORT_MARGIN))
    (hvy : ¬(e.top + e.height < -VIEWPORT_MARGIN ∨ e.top > vh + VIEWPORT_MARGIN)) :
    processElem vw vh { e with zIndex := .auto } = none ∧
    processElem vw vh { e with zIndex := .emptyStr } = none ∧
    processElem vw vh { e with zIndex := .nonNumeric } = none ∧
    ((processElem vw vh { e with zIndex := .numeric n }).map fun bm => bm.1.z) =
      some ((normalizeZ (max 0 n) : ℤ) : ℚ) := by
  refine ⟨?_, ?_, ?_, ?_⟩ <;>
    simp [processElem, htag, hid, hdis, hpos, hw, hvx, hvy]

def elemNeg : Elem :=
  { tag := "SPAN", idDom3d := false, display := "inline-block", visibility := "visible",
    position := "relative", zIndex := .numeric (-5), left := 20, top := 30,
    width := 40, height := 40, inlineTransform := "", computedTransform := "",
    computedHasTranslateZ := false }

/-- Witness for the amended C7 at a concrete element with `z-index: -5`. -/
theorem zindex_normalization_witness :
    processElem 800 600 { elemNeg with zIndex := .auto } = none ∧
    processElem 800 600 { elemNeg with zIndex := .emptyStr } = none ∧
    processElem 800 600 { elemNeg with zIndex := .nonNumeric } = none ∧
    ((processElem 800 600 { elemNeg with zIndex := .numeric (-5) }).map fun bm => bm.1.z) =
      some ((normalizeZ (max 0 (-5)) : ℤ) : ℚ) :=
  zindex_normalization 800 600 elemNeg (-5)
    (by decide)
    rfl
    (by decide)
    (by decide)
    (by decide)
    (by norm_num [elemNeg, VIEWPORT_MARGIN])
    (by norm_num [elemNeg, VIEWPORT_MARGIN])

def elemAuto : Elem :=
  { tag := "DIV", idDom3d := false, display := "flex", visibility := "visible",
    position := "fixed", zIndex := .auto, left := 50, top := 60,
    width := 200, height := 120, inlineTransform := "", computedTransform := "none",
    computedHasTranslateZ := false }

/-- C7 counterexample: an element that passes every other filter but has
`z-index: auto` yields NO box (it is excluded from the box list), contrary
to the claim that it still yields a box with z = 0. -/
theorem invalid_zindex_skipped_cex :
    processElem 800 600 elemAuto = none ∧
    (scanDOM 800 600 docW [elemAuto]).boxes = [baseFloor docW] := by
  constructor <;>
    norm_num +decide [processElem, scanDOM, elemAuto, EXCLUDED_TAGS, VIEWPORT_MARGIN]

-- ============================================================================
-- Physics (content-script.js lines 253-377) and main loop (lines 744-753)
-- ============================================================================

/-- Movement key state (`keys`, line 48; `space` only acts through
`jumpQueued`). -/
structure Keys where
  h : Bool
  j : Bool
  k : Bool
  l : Bool
deriving DecidableEq

/-- The module-level mutable state read and written by `physics`. -/
structure GameState where
  player : Player
  keys : Keys
  jumpQueued : Bool
  isGrounded : Bool
  groundZ : ℚ
  jumpVz : ℚ
  grid : Grid

/-- The triple of variables mutated inside the per-axis resolution loops. -/
structure PhysState where
  p : Player
  isGrounded : Bool
  groundZ : ℚ

/-- `vx` after step 1 (lines 255-260): write `-MOVE_SPEED` on `h`, then
`MOVE_SPEED` on `l` (the later assignment wins when both keys are held). -/
def inputVx (keys : Keys) : ℚ :=
  let vx : ℚ := 0
  let vx := if keys.h then -MOVE_SPEED else vx
  if keys.l then MOVE_SPEED else vx

/-- `vy` after step 1 (lines 261-264): `-MOVE_SPEED` on `k`, then
`MOVE_SPEED` on `j`. -/
def inputVy (keys : Keys) : ℚ :=
  let vy : ℚ := 0
  let vy := if keys.k then -MOVE_SPEED else vy
  if keys.j then MOVE_SPEED else vy

/-- Loop body of the X-axis resolution pass (lines 278-306): on a collision
(Y, Z and X overlap), either step up onto a low box top, or push out of the
side with smaller penetration and zero `vx`. -/
def resolveXBox (st : PhysState) (box : Box) : PhysState :=
  if overlapY st.p box ∧ overlapZ st.p box ∧ overlapX st.p box then
    let boxTop := box.z + box.d
    let stepHeight := boxTop - st.p.z
    if 0 < stepHeight ∧ stepHeight ≤ STEP_HEIGHT then
      { st with
        p := { st.p with z := boxTop, vz := 0 }
        isGrounded := true
        groundZ := boxTop }
    else
      let penLeft := (st.p.x + st.p.w) - box.x
      let penRight := (box.x + box.w) - st.p.x
      if penLeft < penRight then
        { st with p := { st.p with x := box.x - st.p.w, vx := 0 } }
      else
        { st with p := { st.p with x := box.x + box.w, vx := 0 } }
  else st

/-- Loop body of the Y-axis resolution pass (lines 310-336). -/
def resolveYBox (st : PhysState) (box : Box) : PhysState :=
  if overlapX st.p box ∧ overlapZ st.p box ∧ overlapY st.p box then
    let boxTop := box.z + box.d
    let stepHeight := boxTop - st.p.z
    if 0 < stepHeight ∧ stepHeight ≤ STEP_HEIGHT then
      { st with
        p := { st.p with z := boxTop, vz := 0 }
        isGrounded := true
        groundZ := boxTop }
    else
      let penTop := (st.p.y + st.p.h) - box.y
      let penBottom := (box.y + box.h) - st.p.y
      if penTop < penBottom then
        { st with p := { st.p with y := box.y - st.p.h, vy := 0 } }
      else
        { st with p := { st.p with y := box.y + box.h, vy := 0 } }
  else st

/-- Loop body of the Z-axis resolution pass (lines 341-360): ceiling hit
clamps below the box and zeroes `vz`; floor landing snaps onto the box top,
zeroes `vz`, sets `isGrounded` and refreshes `groundZ`. -/
def resolveZBox (st : PhysState) (box : Box) : PhysState :=
  if overlapX st.p box ∧ overlapY st.p box ∧ overlapZ st.p box then
    let penFront := (st.p.z + st.p.d) - box.z
    let penBack := (box.z + box.d) - st.p.z
    if penFront < penBack then
      { st with p := { st.p with z := box.z - st.p.d, vz := 0 } }
    else
      let floorTop := box.z + box.d
      { st with
        p := { st.p with z := floorTop, vz := 0 }
        isGrounded := true
        groundZ := floorTop }
  else st

/-- Step 7 (lines 361-375): recompute `groundZ` as the highest box top at or
below the player's feet (plus 1 of slack) among the nearby boxes overlapping
in XY, starting from the base floor 0. -/
def bestGround (nearby : List Box) (p : Player) : ℚ :=
  nearby.foldl
    (fun best box =>
      if overlapX p box ∧ overlapY p box then
        let boxTop := box.z + box.d
        if boxTop ≤ p.z + 1 ∧ best < boxTop then boxTop else best
      else best)
    0

/-- The player after steps 1-2 (input, jump, gravity; lines 254-272):
velocities updated, position untouched. -/
def velocityPlayer (dt : ℚ) (s : GameState) : Player :=
  let p0 := { s.player with vx := inputVx s.keys, vy := inputVy s.keys }
  let p1 := if s.jumpQueued && s.isGrounded then { p0 with vz := s.jumpVz } else p0
  { p1 with vz := p1.vz - GRAVITY * dt }

/-- `isGrounded` after the jump consumption of step 1 (lines 266-269). -/
def groundedAfterJump (s : GameState) : Bool :=
  if s.jumpQueued && s.isGrounded then false else s.isGrounded

/-- Step 3 (line 274): the grid query performed once, with the player's
velocities already updated but its position not yet moved. -/
def nearbyBoxes (dt : ℚ) (s : GameState) : List Box :=
  queryNearby s.grid (velocityPlayer dt s)

/-- State after steps 4-5 (X move + X loop, Y move + Y loop). -/
def afterXY (dt : ℚ) (s : GameState) : PhysState :=
  let nearby := nearbyBoxes dt s
  let pv := velocityPlayer dt s
  let st0 : PhysState :=
    { p := { pv with x := pv.x + pv.vx * dt }
      isGrounded := groundedAfterJump s
      groundZ := s.groundZ }
  let st1 := nearby.foldl resolveXBox st0
  nearby.foldl resolveYBox { st1 with p := { st1.p with y := st1.p.y + st1.p.vy * dt } }

/-- The player just after the Z move of step 6 (line 339), before the Z loop. -/
def zMoved (dt : ℚ) (s : GameState) : Player :=
  let st2 := afterXY dt s
  { st2.p with z := st2.p.z + st2.p.vz * dt }

/-- `physics(dt)` (lines 253-377): one full frame step.  `isGrounded` is
reset to `false` before the Z loop (line 340); there is no absolute-floor
clamp at the end (line 376: "No virtual floor clamp"). -/
def physics (dt : ℚ) (s : GameState) : GameState :=
  let nearby := nearbyBoxes dt s
  let st3 := nearby.foldl resolveZBox
    { p := zMoved dt s, isGrounded := false, groundZ := (afterXY dt s).groundZ }
  { s with
    player := st3.p
    isGrounded := st3.isGrounded
    groundZ := bestGround nearby st3.p
    jumpQueued := false }

/-- The dt computed by the main loop (line 748): elapsed milliseconds over
1000, clamped to at most 0.1 s. -/
def frameDt (elapsedMs : ℚ) : ℚ :=
  min (elapsedMs / 1000) (1 / 10)

/-- One iteration of `loop` (lines 744-753) as it drives `physics`. -/
def loopStep (elapsedMs : ℚ) (s : GameState) : GameState :=
  physics (frameDt elapsedMs) s

/-- Whether the sequential Z-resolution loop, started from player `p`, takes
the floor-landing branch for some box (tracking the player updates the loop
makes along the way). -/
def zPassLands (p : Player) : List Box → Bool
  | [] => false
  | box :: rest =>
    if overlapX p box ∧ overlapY p box ∧ overlapZ p box then
      if (p.z + p.d) - box.z < (box.z + box.d) - p.z then
        zPassLands { p with z := box.z - p.d, vz := 0 } rest
      else true
    else zPassLands p rest

-- C4: step-climb

/-- C4: for a box whose top is strictly above the player's current z by at
most `STEP_HEIGHT`, a collision found while resolving horizontal motion (the
X or the Y pass) snaps the player's z onto the box top, leaves the moved
horizontal coordinate and the horizontal velocity (hence its sign) unchanged,
and marks the player grounded — instead of pushing the player back
horizontally. -/
theorem step_climb_snaps (st : PhysState) (box : Box)
    (hoX : overlapX st.p box) (hoY : overlapY st.p box) (hoZ : overlapZ st.p box)
    (hstep1 : 0 < box.z + box.d - st.p.z)
    (hstep2 : box.z + box.d - st.p.z ≤ STEP_HEIGHT) :
    (resolveXBox st box).p.z = box.z + box.d ∧
    (resolveXBox st box).p.vx = st.p.vx ∧
    (resolveXBox st box).p.x = st.p.x ∧
    (resolveXBox st box).isGrounded = true ∧
    (resolveYBox st box).p.z = box.z + box.d ∧
    (resolveYBox st box).p.vy = st.p.vy ∧
    (resolveYBox st box).p.y = st.p.y ∧
    (resolveYBox st box).isGrounded = true := by
  have hx : resolveXBox st box =
      { st with
        p := { st.p with z := box.z + box.d, vz := 0 }
        isGrounded := true
        groundZ := box.z + box.d } := by
    unfold resolveXBox
    rw [if_pos ⟨hoY, hoZ, hoX⟩, if_pos ⟨hstep1, hstep2⟩]
  have hy : resolveYBox st box =
      { st with
        p := { st.p with z := box.z + box.d, vz := 0 }
        isGrounded := true
        groundZ := box.z + box.d } := by
    unfold resolveYBox
    rw [if_pos ⟨hoX, hoZ, hoY⟩, if_pos ⟨hstep1, hstep2⟩]
  rw [hx, hy]
  exact ⟨rfl, rfl, rfl, rfl, rfl, rfl, rfl, rfl⟩

def stW4 : PhysState :=
  { p := { x := 90, y := 10, z := 60, w := 20, h := 20, d := 20, vx := 300, vy := 300, vz := 0 }
    isGrounded := false
    groundZ := 0 }

def boxW4 : Box := { x := 100, y := 0, z := 0, w := 100, h := 100, d := 80 }

/-- Witness for C4 at a concrete player and box (step of height 20). -/
theorem step_climb_snaps_witness :
    (resolveXBox stW4 boxW4).p.z = boxW4.z + boxW4.d ∧
    (resolveXBox stW4 boxW4).p.vx = stW4.p.vx ∧
    (resolveXBox stW4 boxW4).p.x = stW4.p.x ∧
    (resolveXBox stW4 boxW4).isGrounded = true ∧
    (resolveYBox stW4 boxW4).p.z = boxW4.z + boxW4.d ∧
    (resolveYBox stW4 boxW4).p.vy = stW4.p.vy ∧
    (resolveYBox stW4 boxW4).p.y = stW4.p.y ∧
    (resolveYBox stW4 boxW4).isGrounded = true :=
  step_climb_snaps stW4 boxW4
    (by norm_num [overlapX, stW4, boxW4])
    (by norm_num [overlapY, stW4, boxW4])
    (by norm_num [overlapZ, stW4, boxW4])
    (by norm_num [stW4, boxW4])
    (by norm_num [stW4, boxW4, STEP_HEIGHT])

-- C10: the Z pass alone decides the final grounded flag

lemma resolveZBox_ceiling {st : PhysState} {b : Box}
    (h1 : overlapX st.p b ∧ overlapY st.p b ∧ overlapZ st.p b)
    (h2 : st.p.z + st.p.d - b.z < b.z + b.d - st.p.z) :
    resolveZBox st b =
      { st with p := { st.p with z := b.z - st.p.d, vz := 0 } } := by
  simp only [resolveZBox]
  rw [if_pos h1, if_pos h2]

lemma resolveZBox_floor {st : PhysState} {b : Box}
    (h1 : overlapX st.p b ∧ overlapY st.p b ∧ overlapZ st.p b)
    (h2 : ¬(st.p.z + st.p.d - b.z < b.z + b.d - st.p.z)) :
    resolveZBox st b =
      { st with
        p := { st.p with z := b.z + b.d, vz := 0 }
        isGrounded := true
        groundZ := b.z + b.d } := by
  simp only [resolveZBox]
  rw [if_pos h1, if_neg h2]

lemma resolveZBox_miss {st : PhysState} {b : Box}
    (h1 : ¬(overlapX st.p b ∧ overlapY st.p b ∧ overlapZ st.p b)) :
    resolveZBox st b = st := by
  simp only [resolveZBox]
  rw [if_neg h1]

lemma resolveZBox_grounded_mono {st : PhysState} {b : Box}
    (h : st.isGrounded = true) : (resolveZBox st b).isGrounded = true := by
  by_cases h1 : overlapX st.p b ∧ overlapY st.p b ∧ overlapZ st.p b
  · by_cases h2 : st.p.z + st.p.d - b.z < b.z + b.d - st.p.z
    · rw [resolveZBox_ceiling h1 h2]
      exact h
    · rw [resolveZBox_floor h1 h2]
  · rw [resolveZBox_miss h1]
    exact h

lemma foldl_resolveZBox_grounded_mono (bs : List Box) (st : PhysState)
    (h : st.isGrounded = true) : (bs.foldl resolveZBox st).isGrounded = true := by
  induction bs generalizing st with
  | nil => exact h
  | cons b t ih => exact ih _ (resolveZBox_grounded_mono h)

lemma foldl_resolveZBox_lands (bs : List Box) (p : Player) (gz : ℚ) :
    (bs.foldl resolveZBox { p := p, isGrounded := false, groundZ := gz }).isGrounded =
      zPassLands p bs := by
  induction bs generalizing p gz with
  | nil => rfl
  | cons b t ih =>
    rw [List.foldl_cons]
    by_cases h1 : overlapX p b ∧ overlapY p b ∧ overlapZ p b
    · by_cases h2 : p.z + p.d - b.z < b.z + b.d - p.z
      · rw [show resolveZBox { p := p, isGrounded := false, groundZ := gz } b =
              { p := { p with z := b.z - p.d, vz := 0 }, isGrounded := false, groundZ := gz }
            from resolveZBox_ceiling h1 h2]
        simp only [zPassLands]
        rw [if_pos h1, if_pos h2]
        exact ih _ _
      · rw [show resolveZBox { p := p, isGrounded := false, groundZ := gz } b =
              { p := { p with z := b.z + b.d, vz := 0 }, isGrounded := true,
                groundZ := b.z + b.d }
            from resolveZBox_floor h1 h2]
        simp only [zPassLands]
        rw [if_pos h1, if_neg h2]
        exact foldl_resolveZBox_grounded_mono t _ rfl
    · rw [show resolveZBox { p := p, isGrounded := false, groundZ := gz } b =
            { p := p, isGrounded := false, groundZ := gz }
          from resolveZBox_miss h1]
      simp only [zPassLands]
      rw [if_neg h1]
      exact ih _ _

/-- C10: at the end of every `physics(dt)` call, `isGrounded` holds exactly
when the Z-resolution loop of that same call lands the player on some box
top: the flag is reset to `false` just before the Z loop, so grounding set
earlier in the frame (e.g. by step-climbing in the X/Y passes, recorded in
`afterXY`) is discarded unless the Z pass itself lands — the right-hand side
depends only on the post-move player and the nearby boxes, not on the
grounded flag produced by the X/Y passes. -/
theorem grounded_iff_z_pass_lands (dt : ℚ) (s : GameState) :
    (physics dt s).isGrounded = zPassLands (zMoved dt s) (nearbyBoxes dt s) := by
  show ((nearbyBoxes dt s).foldl resolveZBox
    { p := zMoved dt s, isGrounded := false, groundZ := (afterXY dt s).groundZ }).isGrounded = _
  exact foldl_resolveZBox_lands _ _ _

-- C1: there is no absolute-floor clamp

lemma queryNearby_emptyGrid (p : Player) : queryNearby emptyGrid p = [] := by
  rw [List.eq_nil_iff_forall_not_mem]
  intro b hb
  unfold queryNearby at hb
  rw [List.mem_dedup] at hb
  obtain ⟨cx, _, hcy⟩ := List.mem_flatMap.mp hb
  obtain ⟨cy, _, hmem⟩ := List.mem_flatMap.mp hcy
  exact List.not_mem_nil b hmem

/-- Over an empty grid (no boxes at all, in particular no ground box), one
physics step just integrates gravity into z and ends not grounded — nothing
clamps a negative z. -/
lemma physics_emptyGrid_step (dt : ℚ) (s : GameState)
    (hgrid : s.grid = emptyGrid) (hjq : s.jumpQueued = false) :
    (physics dt s).player.z = s.player.z + (s.player.vz - GRAVITY * dt) * dt ∧
    (physics dt s).player.vz = s.player.vz - GRAVITY * dt ∧
    (physics dt s).isGrounded = false := by
  have hnb : nearbyBoxes dt s = [] := by
    rw [nearbyBoxes, hgrid, queryNearby_emptyGrid]
  have hpvz : (velocityPlayer dt s).z = s.player.z := by
    simp [velocityPlayer, hjq]
  have hpvvz : (velocityPlayer dt s).vz = s.player.vz - GRAVITY * dt := by
    simp [velocityPlayer, hjq]
  have haz : (afterXY dt s).p.z = (velocityPlayer dt s).z := by
    unfold afterXY
    rw [hnb]
    rfl
  have havz : (afterXY dt s).p.vz = (velocityPlayer dt s).vz := by
    unfold afterXY
    rw [hnb]
    rfl
  have hplayer : (physics dt s).player = zMoved dt s := by
    unfold physics
    rw [hnb]
    rfl
  have hgrd : (physics dt s).isGrounded = false := by
    unfold physics
    rw [hnb]
    rfl
  have hzz : (zMoved dt s).z = (afterXY dt s).p.z + (afterXY dt s).p.vz * dt := rfl
  have hzvz : (zMoved dt s).vz = (afterXY dt s).p.vz := rfl
  refine ⟨?_, ?_, hgrd⟩
  · rw [hplayer, hzz, haz, havz, hpvz, hpvvz]
  · rw [hplayer, hzvz, havz, hpvvz]

def stateC1 : GameState :=
  { player := { x := 100, y := 100, z := 0, w := 20, h := 20, d := 20, vx := 0, vy := 0, vz := 0 }
    keys := { h := false, j := false, k := false, l := false }
    jumpQueued := false
    isGrounded := false
    groundZ := 0
    jumpVz := 300
    grid := emptyGrid }

/-- C1 counterexample: over a missing ground box (empty box list, hence an
empty grid) a physics step from rest at z = 0 with dt = 0.1 ends with
z = -7 < 0, vz = -70 ≠ 0 and isGrounded = false: the step leaves the player
below the floor, with no clamp to 0. -/
theorem physics_negative_z_cex :
    (physics (1 / 10) stateC1).player.z = -7 ∧
    (physics (1 / 10) stateC1).player.z < 0 ∧
    (physics (1 / 10) stateC1).player.vz = -70 ∧
    (physics (1 / 10) stateC1).isGrounded = false := by
  obtain ⟨hz, hvz, hgr⟩ := physics_emptyGrid_step (1 / 10) stateC1 rfl rfl
  rw [hz, hvz]
  refine ⟨?_, ?_, ?_, hgr⟩ <;> norm_num [stateC1, GRAVITY]

/-- C1 amended: `physics` applies NO absolute-floor clamp (line 376: "No
virtual floor clamp").  When no box is near (empty grid / missing ground
box) the step ends with z = z + (vz - GRAVITY*dt)*dt — which is negative
from rest at z = 0 for any dt > 0 — with vz = vz - GRAVITY*dt not zeroed and
isGrounded = false; z ≥ 0 is maintained only through collision with the
scanned ground box. -/
theorem physics_no_floor_clamp (dt : ℚ) (s : GameState)
    (hgrid : s.grid = emptyGrid) (hjq : s.jumpQueued = false) :
    (physics dt s).player.z = s.player.z + (s.player.vz - GRAVITY * dt) * dt ∧
    (physics dt s).player.vz = s.player.vz - GRAVITY * dt ∧
    (physics dt s).isGrounded = false :=
  physics_emptyGrid_step dt s hgrid hjq

/-- Witness for the amended C1 at the concrete rest state. -/
theorem physics_no_floor_clamp_witness :
    (physics (1 / 10) stateC1).player.z =
      stateC1.player.z + (stateC1.player.vz - GRAVITY * (1 / 10)) * (1 / 10) ∧
    (physics (1 / 10) stateC1).player.vz = stateC1.player.vz - GRAVITY * (1 / 10) ∧
    (physics (1 / 10) stateC1).isGrounded = false :=
  physics_no_floor_clamp (1 / 10) stateC1 rfl rfl

-- C5: a grounded resting player is a fixed point of the frame step

lemma buildGrid_single_mem {b x : Box} {k : Cell} (h : x ∈ buildGrid [b] k) : x = b := by
  unfold buildGrid at h
  rw [List.foldl_cons, List.foldl_nil] at h
  unfold insertBox emptyGrid at h
  split at h
  · rw [List.nil_append, List.mem_singleton] at h
    exact h
  · cases h

lemma dedup_all_eq {α : Type} [DecidableEq α] {l : List α} {a : α}
    (hne : a ∈ l) (hall : ∀ x ∈ l, x = a) : l.dedup = [a] := by
  induction l with
  | nil => cases hne
  | cons x t ih =>
    have hx : x = a := hall x (List.mem_cons_self _ _)
    subst hx
    by_cases hmem : x ∈ t
    · rw [List.dedup_cons_of_mem hmem]
      exact ih hmem fun y hy => hall y (List.mem_cons.mpr (Or.inr hy))
    · have ht : t = [] := by
        cases t with
        | nil => rfl
        | cons z t2 =>
          exact absurd
            (List.mem_cons.mpr (Or.inl
              (hall z (List.mem_cons.mpr (Or.inr (List.mem_cons_self _ _)))).symm))
            hmem
      subst ht
      rfl

lemma queryNearby_single {b : Box} {p : Player}
    (hmem : b ∈ queryNearby (buildGrid [b]) p) :
    queryNearby (buildGrid [b]) p = [b] := by
  unfold queryNearby at *
  apply dedup_all_eq (List.mem_dedup.mp hmem)
  intro x hx
  obtain ⟨cx, _, hcy⟩ := List.mem_flatMap.mp hx
  obtain ⟨cy, _, hmem2⟩ := List.mem_flatMap.mp hcy
  exact buildGrid_single_mem hmem2

lemma resolveXBox_not_overlapZ {st : PhysState} {b : Box}
    (h : ¬ overlapZ st.p b) : resolveXBox st b = st := by
  simp only [resolveXBox]
  rw [if_neg fun hc => h hc.2.1]

lemma resolveYBox_not_overlapZ {st : PhysState} {b : Box}
    (h : ¬ overlapZ st.p b) : resolveYBox st b = st := by
  simp only [resolveYBox]
  rw [if_neg fun hc => h hc.2.1]

set_option maxHeartbeats 1000000 in
/-- The core of C5: in the rest configuration — player standing exactly on
the top of the single world box with zero velocity, no keys, no queued jump —
one `physics dt` step with `0 < dt ≤ 0.1` reproduces the state exactly. -/
lemma physics_rest_fixed (s : GameState) (b : Box) (dt : ℚ)
    (hgrid : s.grid = buildGrid [b])
    (hz : s.player.z = b.z + b.d) (hgz : s.groundZ = b.z + b.d)
    (hvx : s.player.vx = 0) (hvy : s.player.vy = 0) (hvz : s.player.vz = 0)
    (hkh : s.keys.h = false) (hkj : s.keys.j = false)
    (hkk : s.keys.k = false) (hkl : s.keys.l = false)
    (hjq : s.jumpQueued = false) (hgr : s.isGrounded = true)
    (hoX : overlapX s.player b) (hoY : overlapY s.player b)
    (hpd : s.player.d = PLAYER_DEPTH)
    (hbz : 0 ≤ b.z) (hbd : 0 < b.d)
    (hbw : 0 ≤ b.w) (hbh : 0 ≤ b.h) (hpw : 0 ≤ s.player.w) (hph : 0 ≤ s.player.h)
    (hdt0 : 0 < dt) (hdt1 : dt ≤ 1 / 10) :
    physics dt s = s := by
  obtain ⟨⟨px, py, pz, pw, phh, pd, pvx, pvy, pvz⟩, ⟨kh, kj, kk, kl⟩, jq, gr, gz, jv, gd⟩ := s
  dsimp only at hz hgz hvx hvy hvz hkh hkj hkk hkl hjq hgr hpd hpw hph hgrid hoX hoY
  subst hz hgz hvx hvy hvz hkh hkj hkk hkl hjq hgr hpd hgrid
  have hoX' : px < b.x + b.w ∧ px + pw > b.x := hoX
  have hoY' : py < b.y + b.h ∧ py + phh > b.y := hoY
  have hCpos : (0 : ℚ) < GRID_CELL := by norm_num [GRID_CELL]
  -- step 1-2: only vz changes
  have hpv : velocityPlayer dt
      ⟨⟨px, py, b.z + b.d, pw, phh, PLAYER_DEPTH, 0, 0, 0⟩,
        ⟨false, false, false, false⟩, false, true, b.z + b.d, jv, buildGrid [b]⟩ =
      ⟨px, py, b.z + b.d, pw, phh, PLAYER_DEPTH, 0, 0, 0 - GRAVITY * dt⟩ := rfl
  -- step 3: the query returns exactly [b]
  have hqmem : b ∈ queryNearby (buildGrid [b])
      (⟨px, py, b.z + b.d, pw, phh, PLAYER_DEPTH, 0, 0, 0 - GRAVITY * dt⟩ : Player) := by
    apply queryNearby_mem_of_overlap [b] _ b (List.mem_singleton_self b) hbw hbh hpw hph
    exact ⟨⟨by linarith [hoX'.2], by linarith [hoX'.1]⟩,
           ⟨by linarith [hoY'.2], by linarith [hoY'.1]⟩⟩
  have hnb : nearbyBoxes dt
      ⟨⟨px, py, b.z + b.d, pw, phh, PLAYER_DEPTH, 0, 0, 0⟩,
        ⟨false, false, false, false⟩, false, true, b.z + b.d, jv, buildGrid [b]⟩ = [b] := by
    show queryNearby (buildGrid [b]) _ = [b]
    rw [hpv]
    exact queryNearby_single hqmem
  -- steps 4-5: the player rests exactly on the box top, so no X/Y collision
  have hnoz : ¬ overlapZ
      (⟨px, py, b.z + b.d, pw, phh, PLAYER_DEPTH, 0, 0, 0 - GRAVITY * dt⟩ : Player) b :=
    fun hcon => absurd hcon.1 (lt_irrefl _)
  have haXY : afterXY dt
      ⟨⟨px, py, b.z + b.d, pw, phh, PLAYER_DEPTH, 0, 0, 0⟩,
        ⟨false, false, false, false⟩, false, true, b.z + b.d, jv, buildGrid [b]⟩ =
      ⟨⟨px, py, b.z + b.d, pw, phh, PLAYER_DEPTH, 0, 0, 0 - GRAVITY * dt⟩,
        true, b.z + b.d⟩ := by
    unfold afterXY
    rw [hnb, hpv]
    simp only [List.foldl_cons, List.foldl_nil]
    dsimp only [groundedAfterJump]
    simp only [zero_mul, add_zero]
    rw [resolveXBox_not_overlapZ hnoz]
    dsimp only
    simp only [zero_mul, add_zero]
    rw [resolveYBox_not_overlapZ hnoz]
    rfl
  -- step 6: the Z move sinks the player into the box, the Z loop lands it back
  have hzM : zMoved dt
      ⟨⟨px, py, b.z + b.d, pw, phh, PLAYER_DEPTH, 0, 0, 0⟩,
        ⟨false, false, false, false⟩, false, true, b.z + b.d, jv, buildGrid [b]⟩ =
      ⟨px, py, b.z + b.d + (0 - GRAVITY * dt) * dt, pw, phh, PLAYER_DEPTH,
        0, 0, 0 - GRAVITY * dt⟩ := by
    rw [zMoved, haXY]
  have hG : GRAVITY = 700 := rfl
  have hPD : PLAYER_DEPTH = 20 := rfl
  have hdt2 : GRAVITY * dt * dt ≤ 7 := by
    rw [hG]
    nlinarith
  have hdt2pos : 0 < GRAVITY * dt * dt := by
    rw [hG]
    nlinarith
  have hovz : overlapZ
      (⟨px, py, b.z + b.d + (0 - GRAVITY * dt) * dt, pw, phh, PLAYER_DEPTH,
        0, 0, 0 - GRAVITY * dt⟩ : Player) b := by
    constructor
    · show b.z + b.d + (0 - GRAVITY * dt) * dt < b.z + b.d
      nlinarith
    · show b.z + b.d + (0 - GRAVITY * dt) * dt + PLAYER_DEPTH > b.z
      rw [hPD]
      nlinarith
  have hpen : ¬((⟨px, py, b.z + b.d + (0 - GRAVITY * dt) * dt, pw, phh, PLAYER_DEPTH,
        0, 0, 0 - GRAVITY * dt⟩ : Player).z +
      (⟨px, py, b.z + b.d + (0 - GRAVITY * dt) * dt, pw, phh, PLAYER_DEPTH,
        0, 0, 0 - GRAVITY * dt⟩ : Player).d - b.z < b.z + b.d -
      (⟨px, py, b.z + b.d + (0 - GRAVITY * dt) * dt, pw, phh, PLAYER_DEPTH,
        0, 0, 0 - GRAVITY * dt⟩ : Player).z) := by
    show ¬(b.z + b.d + (0 - GRAVITY * dt) * dt + PLAYER_DEPTH - b.z <
      b.z + b.d - (b.z + b.d + (0 - GRAVITY * dt) * dt))
    rw [hPD]
    intro hcon
    nlinarith
  have hzfloor : resolveZBox
      ⟨⟨px, py, b.z + b.d + (0 - GRAVITY * dt) * dt, pw, phh, PLAYER_DEPTH,
        0, 0, 0 - GRAVITY * dt⟩, false, b.z + b.d⟩ b =
      ⟨⟨px, py, b.z + b.d, pw, phh, PLAYER_DEPTH, 0, 0, 0⟩, true, b.z + b.d⟩ := by
    rw [resolveZBox_floor ⟨⟨hoX'.1, hoX'.2⟩, ⟨hoY'.1, hoY'.2⟩, hovz⟩ hpen]
  -- step 7: groundZ is refreshed back to the box top
  have hbg : bestGround [b] ⟨px, py, b.z + b.d, pw, phh, PLAYER_DEPTH, 0, 0, 0⟩ =
      b.z + b.d := by
    simp only [bestGround, List.foldl_cons, List.foldl_nil]
    rw [if_pos ⟨⟨hoX'.1, hoX'.2⟩, ⟨hoY'.1, hoY'.2⟩⟩,
      if_pos ⟨by linarith, by linarith⟩]
  show physics dt _ = _
  unfold physics
  rw [hnb, hzM, haXY]
  simp only [List.foldl_cons, List.foldl_nil]
  rw [hzfloor]
  dsimp only
  rw [hbg]

/-- C5: a player grounded at rest on the top of the supporting box (z equal
to `groundZ`), with zero velocity and neither movement keys nor a queued
jump, stays at exactly `z = groundZ` after every one of arbitrarily many
consecutive frame steps with any constant elapsed time: each `loopStep`
(`physics` at the loop's clamped dt) is a fixed point of the rest state, so
repeated gravity application causes no drift. -/
theorem rest_no_drift (s : GameState) (b : Box) (elapsedMs : ℚ) (n : ℕ)
    (hgrid : s.grid = buildGrid [b])
    (hz : s.player.z = b.z + b.d) (hgz : s.groundZ = b.z + b.d)
    (hvx : s.player.vx = 0) (hvy : s.player.vy = 0) (hvz : s.player.vz = 0)
    (hkh : s.keys.h = false) (hkj : s.keys.j = false)
    (hkk : s.keys.k = false) (hkl : s.keys.l = false)
    (hjq : s.jumpQueued = false) (hgr : s.isGrounded = true)
    (hoX : overlapX s.player b) (hoY : overlapY s.player b)
    (hpd : s.player.d = PLAYER_DEPTH)
    (hbz : 0 ≤ b.z) (hbd : 0 < b.d)
    (hbw : 0 ≤ b.w) (hbh : 0 ≤ b.h) (hpw : 0 ≤ s.player.w) (hph : 0 ≤ s.player.h)
    (he : 0 < elapsedMs) :
    ((loopStep elapsedMs)^[n] s).player.z = s.groundZ ∧
    ((loopStep elapsedMs)^[n] s).groundZ = s.groundZ := by
  have hdt0 : 0 < frameDt elapsedMs :=
    lt_min (div_pos he (by norm_num)) (by norm_num)
  have hdt1 : frameDt elapsedMs ≤ 1 / 10 := min_le_right _ _
  have hfix : loopStep elapsedMs s = s :=
    physics_rest_fixed s b (frameDt elapsedMs) hgrid hz hgz hvx hvy hvz
      hkh hkj hkk hkl hjq hgr hoX hoY hpd hbz hbd hbw hbh hpw hph hdt0 hdt1
  rw [Function.iterate_fixed hfix]
  exact ⟨hz.trans hgz.symm, rfl⟩

def boxC5 : Box := { x := 0, y := 0, z := 0, w := 100, h := 100, d := 80 }

def stateC5 : GameState :=
  { player := { x := 40, y := 40, z := 80, w := 20, h := 20, d := 20, vx := 0, vy := 0, vz := 0 }
    keys := { h := false, j := false, k := false, l := false }
    jumpQueued := false
    isGrounded := true
    groundZ := 80
    jumpVz := 300
    grid := buildGrid [boxC5] }

/-- Witness for C5: five frame steps at 16 ms over a concrete platform leave
the resting player exactly at its ground height. -/
theorem rest_no_drift_witness :
    ((loopStep 16)^[5] stateC5).player.z = stateC5.groundZ ∧
    ((loopStep 16)^[5] stateC5).groundZ = stateC5.groundZ :=
  rest_no_drift stateC5 boxC5 16 5 rfl
    (by norm_num [stateC5, boxC5])
    (by norm_num [stateC5, boxC5])
    rfl rfl rfl rfl rfl rfl rfl rfl rfl
    (by norm_num [overlapX, stateC5, boxC5])
    (by norm_num [overlapY, stateC5, boxC5])
    rfl
    (by norm_num [boxC5]) (by norm_num [boxC5]) (by norm_num [boxC5])
    (by norm_num [boxC5])
    (by norm_num [stateC5]) (by norm_num [stateC5])
    (by norm_num)

end ZIndexWorld
